import Mathlib

/-!
Shallow embedding of the STLINK-V3 SPI bridge driver (src/stlinkv3_spi.c).

The external effects (USB bulk transfers performed through libusb) are
modelled by oracle records fixing the outcome of every transfer a run would
attempt; the driver functions become pure functions of those oracles,
returning the C return code together with the trace of protocol commands
they issued.  Machine integers are modelled as Nat with explicit `% 2^w`
where the C code truncates (uint8_t casts, uint16_t out-parameters).
-/

namespace Stlinkv3

/-- FIRMWARE_BRIDGE_STLINK_V3_LAST_VERSION (line 112 of stlinkv3_spi.c). -/
def FIRMWARE_BRIDGE_STLINK_V3_LAST_VERSION : Nat := 3

/-- UINT16_MAX from limits.h, used for the spi_master data limits. -/
def UINT16_MAX : Nat := 65535

/-- The divisor (`prescaler_value` in the C code) selected by the if-chain of
stlinkv3_spi_calc_prescaler (lines 183-211) as a function of
`calculated_prescaler = bridge_clk_in_kHz / reqd_freq_in_kHz`.  Both the
`<= 256` branch and the final `else` branch of the C code set the value
to 256. -/
def prescaler_value (cp : Nat) : Nat :=
  if cp ≤ 2 then 2
  else if cp ≤ 4 then 4
  else if cp ≤ 8 then 8
  else if cp ≤ 16 then 16
  else if cp ≤ 32 then 32
  else if cp ≤ 64 then 64
  else if cp ≤ 128 then 128
  else 256

/-- The SPI_prescaler_t enum code (`*prescaler` out-parameter) selected by the
same if-chain: SPI_BAUDRATEPRESCALER_2 = 0 up to SPI_BAUDRATEPRESCALER_256
= 7; both the `<= 256` branch and the final clamp branch write 7. -/
def SPI_prescaler_code (cp : Nat) : Nat :=
  if cp ≤ 2 then 0
  else if cp ≤ 4 then 1
  else if cp ≤ 8 then 2
  else if cp ≤ 16 then 3
  else if cp ≤ 32 then 4
  else if cp ≤ 64 then 5
  else if cp ≤ 128 then 6
  else 7

/-- stlinkv3_spi_calc_prescaler (lines 170-216) with the bridge input clock
already resolved; the stlinkv3_get_clk call and its transport failure are
handled by the caller model (`stlinkv3_spi_open`).  Line 181 divides by
`reqd_freq_in_kHz` with no zero check; division by zero is undefined
behaviour in C, so the embedding returns `none` in that case.  The
`calculated_freq_in_kHz` out-parameter is a uint16_t, hence the `% 65536`
on the stored quotient (line 213).  Returns
`(prescaler enum code, calculated_freq_in_kHz)`. -/
def stlinkv3_spi_calc_prescaler (bridge_clk_in_kHz reqd_freq_in_kHz : Nat) :
    Option (Nat × Nat) :=
  if reqd_freq_in_kHz = 0 then none
  else
    some (SPI_prescaler_code (bridge_clk_in_kHz / reqd_freq_in_kHz),
      (bridge_clk_in_kHz / prescaler_value (bridge_clk_in_kHz / reqd_freq_in_kHz)) % 65536)

/-- The loop at line 418 copies `write_arr[i]` into `command[4+i]` for
`i < 8 && i < write_cnt`; slots the loop does not reach keep the memset
zero. -/
def inline_byte (write_cnt : Nat) (write_arr : Nat → Nat) (i : Nat) : Nat :=
  if i < write_cnt then write_arr i else 0

/-- The 16-byte STLINK_BRIDGE_WRITE_SPI command frame built at lines 411-419:
byte 0 = STLINK_BRIDGE_COMMAND, byte 1 = STLINK_BRIDGE_WRITE_SPI, byte 2 =
`(uint8_t)write_cnt`, byte 3 = `(uint8_t)(write_cnt >> 8)`, bytes 4..11 the
inline payload prefix, bytes 12..15 the memset zeros. -/
def write_header_frame (write_cnt : Nat) (write_arr : Nat → Nat) : List Nat :=
  [0xFC, 0x21, write_cnt % 256, write_cnt / 256 % 256,
   inline_byte write_cnt write_arr 0, inline_byte write_cnt write_arr 1,
   inline_byte write_cnt write_arr 2, inline_byte write_cnt write_arr 3,
   inline_byte write_cnt write_arr 4, inline_byte write_cnt write_arr 5,
   inline_byte write_cnt write_arr 6, inline_byte write_cnt write_arr 7,
   0, 0, 0, 0]

/-- The STLINK_BRIDGE_READ_SPI command frame: lines 454-456 overwrite only
bytes 1..3 of the same `command` buffer, so bytes 4..15 keep the contents
left over from the write header frame. -/
def read_cmd_frame (read_cnt write_cnt : Nat) (write_arr : Nat → Nat) : List Nat :=
  [0xFC, 0x22, read_cnt % 256, read_cnt / 256 % 256,
   inline_byte write_cnt write_arr 0, inline_byte write_cnt write_arr 1,
   inline_byte write_cnt write_arr 2, inline_byte write_cnt write_arr 3,
   inline_byte write_cnt write_arr 4, inline_byte write_cnt write_arr 5,
   inline_byte write_cnt write_arr 6, inline_byte write_cnt write_arr 7,
   0, 0, 0, 0]

/-- The continuation payload of a long write: the raw bulk transfer at lines
431-436 sends `&write_arr[8]` with length `write_cnt - 8`. -/
def payload_tail (write_cnt : Nat) (write_arr : Nat → Nat) : List Nat :=
  (List.range (write_cnt - 8)).map fun j => write_arr (8 + j)

/-- A bulk-out transfer of the write phase: either a 16-byte command frame or
a raw (not frame-wrapped) payload. -/
inductive Transfer where
  | frame (bytes : List Nat)
  | raw (bytes : List Nat)
deriving DecidableEq, Repr

/-- The sequence of bulk-out transfers the write phase of
stlinkv3_spi_transmit performs (lines 411-443): always the header frame,
followed by the raw continuation exactly when `write_cnt > 8`. -/
def write_phase_transfers (write_cnt : Nat) (write_arr : Nat → Nat) : List Transfer :=
  Transfer.frame (write_header_frame write_cnt write_arr) ::
    (if 8 < write_cnt then [Transfer.raw (payload_tail write_cnt write_arr)] else [])

/-- The 16-bit length field of a write/read command frame: byte 2 is the low
byte, byte 3 the high byte. -/
def frame_len_field (fr : List Nat) : Nat :=
  (fr[2]?).getD 0 + 256 * ((fr[3]?).getD 0)

/-- The spi_master registration data (fields beyond the function pointers). -/
structure spi_master where
  max_data_read : Nat
  max_data_write : Nat
deriving DecidableEq, Repr

/-- spi_programmer_stlinkv3 (lines 532-540): `.max_data_read = UINT16_MAX`
and `.max_data_write = UINT16_MAX`. -/
def spi_programmer_stlinkv3 : spi_master :=
  ⟨UINT16_MAX, UINT16_MAX⟩

/-- The spispeed handling of stlinkv3_spi_init (lines 571-581): the parameter
string is parsed by strtoul and rejected exactly when `*endptr` is nonzero,
i.e. when the string is not consumed entirely.  The string is modelled as
its raw ASCII bytes; a nonempty all-decimal-digit string (bytes 48..57) is
consumed entirely by strtoul and yields its numeric value. -/
def parse_spispeed (s : List Nat) : Option Nat :=
  if s ≠ [] ∧ s.all (fun b => 48 ≤ b ∧ b ≤ 57) then
    some (s.foldl (fun n b => n * 10 + (b - 48)) 0)
  else none

/-- The bulk-transfer failure check used by every transfer except the
INIT_SPI send (e.g. lines 147, 156, 233, 242, 312, 336, 348, 375, 387, 424,
437, 461, 473):
`rc != LIBUSB_TRANSFER_COMPLETED || actualLength != expected`. -/
def transfer_fatal (completed : Bool) (actualLength expected : Nat) : Bool :=
  !completed || actualLength != expected

/-- The check guarding the STLINK_BRIDGE_INIT_SPI send, line 303:
`rc != LIBUSB_TRANSFER_COMPLETED && actualLength != sizeof(command)` —
this one site uses `&&` where every other transfer check uses `||`. -/
def init_spi_send_fatal (completed : Bool) (actualLength : Nat) : Bool :=
  !completed && actualLength != 16

/-- Protocol commands issued by stlinkv3_spi_transmit, in issue order.
`setNssHigh`/`setNssLow` record the attempt to send the
STLINK_BRIDGE_CS_SPI command (regardless of its own transport outcome);
`statusPoll` records a STLINK_BRIDGE_GET_RWCMD_STATUS exchange attempt. -/
inductive SpiEv where
  | setNssLow
  | writeHeader
  | writeCont
  | statusPoll
  | readCmd
  | readData
  | setNssHigh
deriving DecidableEq, Repr

/-- Oracle fixing the outcome of each external exchange a
stlinkv3_spi_transmit run would attempt.  A `true` flag / `some` status
means the corresponding bulk transfer(s) completed with the expected
length; `status1`/`status2` are `none` when the status-poll exchange
itself fails at the transport level, else `some` of the device-reported
32-bit rw_status. -/
structure TransmitEnv where
  nssLowOk : Bool
  writeHeaderOk : Bool
  writeContOk : Bool
  status1 : Option Nat
  readCmdOk : Bool
  readDataOk : Bool
  status2 : Option Nat
  nssHighOk : Bool
deriving DecidableEq, Repr

/-- stlinkv3_spi_transmit (lines 395-498) as a function of the transfer
oracle, returning the C return code and the trace of issued commands.
Faithful control flow: a failed NSS-low (line 406) returns -1 with no
deassert; failed write header / continuation / read command / read data
and a nonzero rw_status all `goto transmit_err` (deassert then -1); a
transport-failed first status poll (line 445) does `return -1` directly,
WITHOUT the transmit_err deassert; a transport-failed second status poll
(line 480) does `goto transmit_err`; the success path deasserts NSS and
returns -1 if that last command itself fails (line 488). -/
def stlinkv3_spi_transmit (env : TransmitEnv) (write_cnt read_cnt : Nat) :
    Int × List SpiEv :=
  if env.nssLowOk = false then
    (-1, [SpiEv.setNssLow])
  else if env.writeHeaderOk = false then
    (-1, [SpiEv.setNssLow, SpiEv.writeHeader, SpiEv.setNssHigh])
  else if 8 < write_cnt ∧ env.writeContOk = false then
    (-1, [SpiEv.setNssLow, SpiEv.writeHeader, SpiEv.writeCont, SpiEv.setNssHigh])
  else
    let tw := [SpiEv.setNssLow, SpiEv.writeHeader] ++
      (if 8 < write_cnt then [SpiEv.writeCont] else []) ++ [SpiEv.statusPoll]
    match env.status1 with
    | none => (-1, tw)
    | some s1 =>
      if s1 ≠ 0 then (-1, tw ++ [SpiEv.setNssHigh])
      else if read_cnt ≠ 0 ∧ env.readCmdOk = false then
        (-1, tw ++ [SpiEv.readCmd, SpiEv.setNssHigh])
      else if read_cnt ≠ 0 ∧ env.readDataOk = false then
        (-1, tw ++ [SpiEv.readCmd, SpiEv.readData, SpiEv.setNssHigh])
      else
        let tr := tw ++
          (if read_cnt ≠ 0 then [SpiEv.readCmd, SpiEv.readData] else []) ++
          [SpiEv.statusPoll]
        match env.status2 with
        | none => (-1, tr ++ [SpiEv.setNssHigh])
        | some s2 =>
          if s2 ≠ 0 then (-1, tr ++ [SpiEv.setNssHigh])
          else if env.nssHighOk = false then (-1, tr ++ [SpiEv.setNssHigh])
          else (0, tr ++ [SpiEv.setNssHigh])

/-- fw_version_check_result_t (lines 36-39). -/
inductive fw_version_check_result where
  | FW_VERSION_OK
  | FW_VERSION_OLD
deriving DecidableEq, Repr

/-- The version comparison of stlinkv3_check_version (lines 249-251), once
both transfers of the version query have succeeded: `answer[4] >=
FIRMWARE_BRIDGE_STLINK_V3_LAST_VERSION ? FW_VERSION_OK : FW_VERSION_OLD`. -/
def stlinkv3_check_version (versionByte : Nat) : fw_version_check_result :=
  if FIRMWARE_BRIDGE_STLINK_V3_LAST_VERSION ≤ versionByte then
    fw_version_check_result.FW_VERSION_OK
  else
    fw_version_check_result.FW_VERSION_OLD

/-- Protocol exchanges issued by stlinkv3_spi_open, in issue order. -/
inductive OpenEv where
  | versionQuery
  | clockQuery
  | initSpi
deriving DecidableEq, Repr

/-- Oracle for a stlinkv3_spi_open run: `versionTransfersOk` covers the two
transfers of stlinkv3_check_version, `versionByte` is `answer[4]`,
`bridgeClk` is `none` when stlinkv3_get_clk fails at the transport level
and `some` of the decoded clock otherwise; `initSendCompleted` /
`initSendLen` are the completion flag and `actualLength` of the INIT_SPI
command send (line 300), `initAnswerOk` covers the 2-byte acknowledgement
read (line 309). -/
structure OpenEnv where
  versionTransfersOk : Bool
  versionByte : Nat
  bridgeClk : Option Nat
  initSendCompleted : Bool
  initSendLen : Nat
  initAnswerOk : Bool
deriving DecidableEq, Repr

/-- stlinkv3_spi_open (lines 255-318) as a function of the oracle and the
requested frequency, returning the C return code (as `some`; `none` models
the undefined behaviour of the division by zero inside the prescaler
calculation) and the trace of issued exchanges.  The INIT_SPI send is
guarded by `init_spi_send_fatal`, the `&&` check of line 303. -/
def stlinkv3_spi_open (env : OpenEnv) (reqested_freq_in_kHz : Nat) :
    Option Int × List OpenEv :=
  if env.versionTransfersOk = false then
    (some (-1), [OpenEv.versionQuery])
  else if stlinkv3_check_version env.versionByte ≠ fw_version_check_result.FW_VERSION_OK then
    (some (-1), [OpenEv.versionQuery])
  else
    match env.bridgeClk with
    | none => (some (-1), [OpenEv.versionQuery, OpenEv.clockQuery])
    | some c =>
      match stlinkv3_spi_calc_prescaler c reqested_freq_in_kHz with
      | none => (none, [OpenEv.versionQuery, OpenEv.clockQuery])
      | some _cfg =>
        if init_spi_send_fatal env.initSendCompleted env.initSendLen = true then
          (some (-1), [OpenEv.versionQuery, OpenEv.clockQuery, OpenEv.initSpi])
        else if env.initAnswerOk = false then
          (some (-1), [OpenEv.versionQuery, OpenEv.clockQuery, OpenEv.initSpi])
        else
          (some 0, [OpenEv.versionQuery, OpenEv.clockQuery, OpenEv.initSpi])

/-- C1: counterexample run for the claim that a set-chip-select-High command
is issued on every exit path once the initial assert succeeded.  With the
chip-select assert, the write header and the write payload all succeeding
but the first status poll failing at the transport level, line 445 of
stlinkv3_spi.c executes `return -1` directly instead of `goto
transmit_err`: the call returns -1 and no set-chip-select-High command is
ever issued. -/
theorem C1_cs_left_asserted_on_first_status_poll_transport_failure :
    stlinkv3_spi_transmit ⟨true, true, true, none, true, true, some 0, true⟩ 4 0 =
      (-1, [SpiEv.setNssLow, SpiEv.writeHeader, SpiEv.statusPoll]) ∧
    SpiEv.setNssHigh ∉
      (stlinkv3_spi_transmit ⟨true, true, true, none, true, true, some 0, true⟩ 4 0).2 := by
  decide

/-- C3: counterexample run for the claim that the resulting clock never
exceeds the request when `c / f ≤ 256`.  With bridge clock 48000 kHz and
requested frequency 23999 kHz the integer ratio is 2, the code picks
divisor 2 (prescaler code 0) and reports 24000 kHz, which exceeds the
23999 kHz request. -/
theorem C3_resulting_clock_exceeds_request :
    48000 / 23999 ≤ 256 ∧
    stlinkv3_spi_calc_prescaler 48000 23999 = some (0, 24000) ∧
    23999 < 24000 := by
  decide

/-- C6: counterexample run for the claim that every operation treats a bulk
transfer as fatal when the completion status is wrong OR the length is
short.  The INIT_SPI send check (line 303) uses `&&`, so a transfer that
completed with only 15 of 16 bytes is tolerated and the whole open
succeeds, while the `||` check used at every other transfer site would
flag exactly that outcome as fatal. -/
theorem C6_init_spi_short_transfer_tolerated :
    init_spi_send_fatal true 15 = false ∧
    transfer_fatal true 15 16 = true ∧
    stlinkv3_spi_open ⟨true, 3, some 48000, true, 15, true⟩ 1000 =
      (some 0, [OpenEv.versionQuery, OpenEv.clockQuery, OpenEv.initSpi]) := by
  decide

/-- C2: counterexample to "it returns resultingClockKHz = c/d" as stated.
With bridge clock 131072 kHz and requested frequency 65535 kHz the ratio is
2, the selected divisor is 2, and `c / d = 65536`, but the uint16_t
out-parameter stores `65536 % 65536 = 0`. -/
theorem C2_counterexample_uint16_truncation :
    prescaler_value (131072 / 65535) = 2 ∧
    (131072 : Nat) / 2 = 65536 ∧
    stlinkv3_spi_calc_prescaler 131072 65535 = some (0, 0) ∧
    (0 : Nat) ≠ 65536 := by
  decide

/-- C2 (amended): for every bridge clock `c` and requested frequency `f > 0`,
the selected divisor is the smallest element of {2,4,8,16,32,64,128,256}
that is at least `c / f` (integer division), clamped to 256 when
`c / f > 256`, and the function returns the matching prescaler code
together with `(c / d) % 2^16` (the quotient as truncated by the uint16_t
out-parameter). -/
theorem C2_calc_prescaler_divisor_selection (c f : Nat) (hf : 0 < f) :
    prescaler_value (c / f) ∈ ([2, 4, 8, 16, 32, 64, 128, 256] : List Nat) ∧
    (c / f ≤ 256 → c / f ≤ prescaler_value (c / f) ∧
      ∀ e ∈ ([2, 4, 8, 16, 32, 64, 128, 256] : List Nat),
        c / f ≤ e → prescaler_value (c / f) ≤ e) ∧
    (256 < c / f → prescaler_value (c / f) = 256) ∧
    stlinkv3_spi_calc_prescaler c f =
      some (SPI_prescaler_code (c / f), (c / prescaler_value (c / f)) % 65536) := by
  have hf0 : f ≠ 0 := Nat.pos_iff_ne_zero.mp hf
  refine ⟨?_, ?_, ?_, ?_⟩
  · unfold prescaler_value
    split_ifs <;> simp
  · intro h
    constructor
    · unfold prescaler_value
      split_ifs <;> omega
    · intro e he hle
      unfold prescaler_value
      split_ifs <;> (fin_cases he <;> omega)
  · intro h
    unfold prescaler_value
    split_ifs <;> omega
  · simp [stlinkv3_spi_calc_prescaler, hf0]

/-- C2 witness: the amended divisor-selection theorem instantiated at bridge
clock 48000 kHz and requested frequency 1000 kHz. -/
theorem C2_calc_prescaler_divisor_selection_witness :
    0 < 1000 ∧
    stlinkv3_spi_calc_prescaler 48000 1000 =
      some (SPI_prescaler_code (48000 / 1000),
        (48000 / prescaler_value (48000 / 1000)) % 65536) :=
  ⟨by decide, (C2_calc_prescaler_divisor_selection 48000 1000 (by decide)).2.2.2⟩

/-- C4: for every run of stlinkv3_spi_transmit in which all USB transfers
complete with the expected lengths (both chip-select commands, the write
header, the continuation, both status-poll exchanges and both read
transfers), the call returns 0 exactly when both polled rw_status values
are zero, and a set-chip-select-High command is issued before returning in
every case. -/
theorem C4_transmit_success_iff_both_status_zero (wc rc s1 s2 : Nat) :
    ((stlinkv3_spi_transmit ⟨true, true, true, some s1, true, true, some s2, true⟩ wc rc).1 = 0 ↔
      (s1 = 0 ∧ s2 = 0)) ∧
    SpiEv.setNssHigh ∈
      (stlinkv3_spi_transmit ⟨true, true, true, some s1, true, true, some s2, true⟩ wc rc).2 := by
  by_cases h1 : s1 = 0 <;> by_cases h2 : s2 = 0 <;>
    by_cases hw : 8 < wc <;> by_cases hr : rc ≠ 0 <;>
      simp [stlinkv3_spi_transmit, h1, h2, hw, hr]

/-- C5: for every stlinkv3_spi_open run whose version-query transfers
succeed, the open proceeds past the version check (issues the bridge clock
query) exactly when the reported version byte is at least 3, and when the
version byte is below 3 the open returns -1 without ever sending the
INIT_SPI command. -/
theorem C5_open_version_gate (env : OpenEnv) (f : Nat)
    (h : env.versionTransfersOk = true) :
    (OpenEv.clockQuery ∈ (stlinkv3_spi_open env f).2 ↔ 3 ≤ env.versionByte) ∧
    (env.versionByte < 3 →
      (stlinkv3_spi_open env f).1 = some (-1) ∧
      OpenEv.initSpi ∉ (stlinkv3_spi_open env f).2) := by
  obtain ⟨vt, vb, bc, isc, isl, ia⟩ := env
  simp only at h
  subst h
  by_cases hv : 3 ≤ vb
  · rcases bc with _ | c
    · simp [stlinkv3_spi_open, stlinkv3_check_version,
        FIRMWARE_BRIDGE_STLINK_V3_LAST_VERSION, hv]
    · rcases hcalc : stlinkv3_spi_calc_prescaler c f with _ | cfg <;>
        by_cases hfatal : init_spi_send_fatal isc isl = true <;>
          by_cases hia : ia = true <;>
            simp [stlinkv3_spi_open, stlinkv3_check_version,
              FIRMWARE_BRIDGE_STLINK_V3_LAST_VERSION, hv, hcalc, hfatal, hia]
  · simp [stlinkv3_spi_open, stlinkv3_check_version,
      FIRMWARE_BRIDGE_STLINK_V3_LAST_VERSION, hv]

/-- C5 witness: the version gate theorem instantiated at a run reporting
firmware version 2 with every transfer succeeding. -/
theorem C5_open_version_gate_witness :
    (OpenEv.clockQuery ∈
        (stlinkv3_spi_open ⟨true, 2, some 48000, true, 16, true⟩ 1000).2 ↔
      3 ≤ 2) ∧
    (2 < 3 →
      (stlinkv3_spi_open ⟨true, 2, some 48000, true, 16, true⟩ 1000).1 = some (-1) ∧
      OpenEv.initSpi ∉
        (stlinkv3_spi_open ⟨true, 2, some 48000, true, 16, true⟩ 1000).2) :=
  C5_open_version_gate ⟨true, 2, some 48000, true, 16, true⟩ 1000 rfl

/-- C7: for every write payload of length `wc < 2^16`, the write header frame
is a single 16-byte frame encoding `wc` at byte 2 (low byte) and byte 3
(high byte) and carrying the first `min wc 8` payload bytes at bytes 4
onward; when `wc ≤ 8` the write phase is exactly that one frame with no
continuation transfer, and when `wc > 8` a second raw bulk transfer of
exactly `wc - 8` bytes carries payload bytes `[8..wc)`. -/
theorem C7_write_frame_layout (wc : Nat) (arr : Nat → Nat) (h : wc < 65536) :
    (write_header_frame wc arr).length = 16 ∧
    (write_header_frame wc arr)[2]? = some (wc % 256) ∧
    (write_header_frame wc arr)[3]? = some (wc / 256) ∧
    wc % 256 + 256 * (wc / 256) = wc ∧
    (∀ i, i < 8 → i < wc → (write_header_frame wc arr)[4 + i]? = some (arr i)) ∧
    (wc ≤ 8 → write_phase_transfers wc arr =
      [Transfer.frame (write_header_frame wc arr)]) ∧
    (8 < wc →
      write_phase_transfers wc arr =
        [Transfer.frame (write_header_frame wc arr),
         Transfer.raw (payload_tail wc arr)] ∧
      (payload_tail wc arr).length = wc - 8 ∧
      ∀ j, j < wc - 8 → (payload_tail wc arr)[j]? = some (arr (8 + j))) := by
  have hhi : wc / 256 % 256 = wc / 256 := Nat.mod_eq_of_lt (by omega)
  refine ⟨rfl, rfl, ?_, by omega, ?_, ?_, ?_⟩
  · simp [write_header_frame, hhi]
  · intro i hi8 hiw
    interval_cases i <;> simp [write_header_frame, inline_byte, hiw]
  · intro h8
    simp [write_phase_transfers, Nat.not_lt.mpr h8]
  · intro h8
    refine ⟨by simp [write_phase_transfers, h8], by simp [payload_tail], ?_⟩
    intro j hj
    simp [payload_tail, hj]

/-- C7 witness: the frame-layout theorem instantiated at a 10-byte payload. -/
theorem C7_write_frame_layout_witness :
    10 < 65536 ∧
    (write_header_frame 10 (fun i => 100 + i))[2]? = some (10 % 256) ∧
    (payload_tail 10 (fun i => 100 + i)).length = 10 - 8 :=
  ⟨by decide,
   (C7_write_frame_layout 10 (fun i => 100 + i) (by decide)).2.1,
   ((C7_write_frame_layout 10 (fun i => 100 + i) (by decide)).2.2.2.2.2.2
     (by decide)).2.1⟩

/-- C8: the prescaler calculation divides the bridge clock by the requested
frequency with no zero check (line 181), so it is defined exactly for
requested frequencies above zero (the embedding returns `none` for the
undefined division by zero); and the public spispeed parameter, parsed by
strtoul with only an end-of-string check, accepts the string "0" and
yields the value 0, which makes this error branch reachable ([48] is the
ASCII byte sequence of the string "0"). -/
theorem C8_spispeed_zero_reaches_unchecked_division :
    parse_spispeed [48] = some 0 ∧
    (∀ c, stlinkv3_spi_calc_prescaler c 0 = none) ∧
    (∀ c f, 0 < f → (stlinkv3_spi_calc_prescaler c f).isSome = true) := by
  refine ⟨by decide, fun c => rfl, fun c f hf => ?_⟩
  simp [stlinkv3_spi_calc_prescaler, Nat.pos_iff_ne_zero.mp hf]

/-- C8 witness: the division is undefined at requested frequency 0 and
defined at 1000, both with bridge clock 48000. -/
theorem C8_spispeed_zero_witness :
    stlinkv3_spi_calc_prescaler 48000 0 = none ∧
    (stlinkv3_spi_calc_prescaler 48000 1000).isSome = true ∧ 0 < 1000 :=
  ⟨C8_spispeed_zero_reaches_unchecked_division.2.1 48000,
   C8_spispeed_zero_reaches_unchecked_division.2.2 48000 1000 (by decide),
   by decide⟩

/-- C9: the 16-bit length field (byte 2 low, byte 3 high) of the write and
read command frames equals the requested count modulo 2^16, the encoding
equals the count exactly when the count is at most 65535, and the
registered spi_master limits both data directions to UINT16_MAX. -/
theorem C9_len_field_mod_2_16 (wc rc : Nat) (arr : Nat → Nat) :
    frame_len_field (write_header_frame wc arr) = wc % 65536 ∧
    (frame_len_field (write_header_frame wc arr) = wc ↔ wc ≤ 65535) ∧
    frame_len_field (read_cmd_frame rc wc arr) = rc % 65536 ∧
    (frame_len_field (read_cmd_frame rc wc arr) = rc ↔ rc ≤ 65535) ∧
    spi_programmer_stlinkv3.max_data_read = 65535 ∧
    spi_programmer_stlinkv3.max_data_write = 65535 := by
  refine ⟨?_, ?_, ?_, ?_, rfl, rfl⟩ <;>
    · simp only [frame_len_field, write_header_frame, read_cmd_frame]
      simp only [List.getElem?_cons_succ, List.getElem?_cons_zero, Option.getD_some]
      omega

/-- C10: the resulting clock frequency is stored in a uint16_t, so the
returned value equals `(c / d) % 2^16` for the selected divisor `d`, and
it equals the exact quotient `c / d` precisely when that quotient is at
most 65535. -/
theorem C10_resulting_clock_truncation (c f : Nat) (hf : 0 < f) :
    stlinkv3_spi_calc_prescaler c f =
      some (SPI_prescaler_code (c / f), (c / prescaler_value (c / f)) % 65536) ∧
    ((c / prescaler_value (c / f)) % 65536 = c / prescaler_value (c / f) ↔
      c / prescaler_value (c / f) ≤ 65535) := by
  constructor
  · simp [stlinkv3_spi_calc_prescaler, Nat.pos_iff_ne_zero.mp hf]
  · have hgen : ∀ q : Nat, q % 65536 = q ↔ q ≤ 65535 := fun q => by omega
    exact hgen _

/-- C10 witness: the truncation theorem instantiated at bridge clock
300000 kHz and requested frequency 1000 kHz. -/
theorem C10_resulting_clock_truncation_witness :
    0 < 1000 ∧
    (stlinkv3_spi_calc_prescaler 300000 1000 =
      some (SPI_prescaler_code (300000 / 1000),
        (300000 / prescaler_value (300000 / 1000)) % 65536) ∧
    ((300000 / prescaler_value ((300000 : Nat) / 1000)) % 65536 =
        300000 / prescaler_value (300000 / 1000) ↔
      (300000 : Nat) / prescaler_value (300000 / 1000) ≤ 65535)) :=
  ⟨by decide, C10_resulting_clock_truncation 300000 1000 (by decide)⟩

end Stlinkv3
